import Mathlib

/-!
# Crucible system — verification of spec claims

Shallow embedding of the Crucible game system (a Foundry VTT module) in
Lean 4.  Each section embeds one part of the source and proves or refutes
one claim about it.  Machine numbers are modelled as `Int`/`Nat`/`Rat`;
JavaScript maps are modelled as `ResourceName → Option Int` style update
functions; fallible code returns `Except`.
-/

namespace Crucible

/-! ## Resource pools and `CrucibleActor.alterResources`

Embeds `CrucibleActor.alterResources` (src/unnamed/part_005, lines 764-793).
The JS iterates the `changes` object entries in order, reading only the
original resource values `r` and accumulating writes into an `updates`
object whose later writes overwrite earlier ones. -/

/-- The resource pools of the Crucible system (SYSTEM.RESOURCES keys). -/
inductive ResourceName
  | health | wounds | morale | madness | action | focus | heroism
deriving DecidableEq, Repr

/-- A resource pool: current value and maximum. -/
structure Resource where
  value : Int
  max : Int
deriving DecidableEq, Repr

/-- Foundry `Math.clamped(num, min, max) = Math.min(max, Math.max(num, min))`. -/
def clamped (x lo hi : Int) : Int := min hi (max x lo)

/-- One iteration of the `for [resourceName, delta] of Object.entries(changes)`
loop of `alterResources`: the health-overflow write onto wounds, the
morale-overflow write onto madness, then the regular clamped write. -/
def applyChange (r : ResourceName → Resource) (updates : ResourceName → Option Int)
    (c : ResourceName × Int) : ResourceName → Option Int :=
  let name := c.1
  let delta := c.2
  let resource := r name
  let uncapped := resource.value + delta
  let overflow := min uncapped 0
  let u1 :=
    if name = ResourceName.health ∧ overflow ≠ 0 then
      Function.update updates ResourceName.wounds
        (some (clamped ((r ResourceName.wounds).value - overflow) 0 (r ResourceName.wounds).max))
    else updates
  let u2 :=
    if name = ResourceName.morale ∧ overflow ≠ 0 then
      Function.update u1 ResourceName.madness
        (some (clamped ((r ResourceName.madness).value - overflow) 0 (r ResourceName.madness).max))
    else u1
  Function.update u2 name (some (clamped uncapped 0 resource.max))

/-- `alterResources`: fold the change list over an empty `updates` map. -/
def alterResources (r : ResourceName → Resource) (changes : List (ResourceName × Int)) :
    ResourceName → Option Int :=
  changes.foldl (applyChange r) (fun _ => none)

/-- The value a pool holds after the update transaction commits: the written
value when a write exists, the original value otherwise. -/
def finalValue (r : ResourceName → Resource) (changes : List (ResourceName × Int))
    (name : ResourceName) : Int :=
  (alterResources r changes name).getD (r name).value

/-- Concrete actor state for the C1 failing input: health 10/20, wounds 0/100000. -/
def r0 : ResourceName → Resource := fun n =>
  match n with
  | ResourceName.health => ⟨10, 20⟩
  | ResourceName.wounds => ⟨0, 100000⟩
  | _ => ⟨0, 10⟩

/-- C1: evaluating `alterResources` at the failing input: a delta of −9999 on
health 10/20 leaves health at 0 and writes wounds = 0 + 9989 — the overflow
is transferred once, not doubled as the in-code comment (`double damage`),
the spec and the claim require (they demand wounds = 19978 here). -/
theorem C1_alterResources_single_transfer_eval :
    finalValue r0 [(ResourceName.health, -9999)] ResourceName.health = 0 ∧
    finalValue r0 [(ResourceName.health, -9999)] ResourceName.wounds = 9989 ∧
    finalValue r0 [(ResourceName.health, -9999)] ResourceName.wounds ≠ 2 * 9989 := by
  refine ⟨?_, ?_, ?_⟩ <;> decide

/-! ## `CrucibleActor.testDefense`

Embeds `CrucibleActor.testDefense` (src/unnamed/part_005, lines 539-572).
The random draw `twist.random() * d.physical` is exposed as the parameter
`r`, a uniform value in `[0, physical)`. -/

/-- `AttackRoll.RESULT_TYPES` members used by `testDefense`. -/
inductive ResultType
  | HIT | DODGE | PARRY | BLOCK | DEFLECT | EFFECTIVE | RESIST
deriving DecidableEq, Repr

/-- Modelled from the spec: the actor defenses data model (`system.defenses`)
is not under src/ (only its consumers are).  Per the spec, `physical` is the
physical defense total; `dodge`, `parry` and `block` are the component
totals; each non-physical defense carries a `total` looked up by name. -/
structure Defenses where
  physical : Rat
  dodge : Rat
  parry : Rat
  block : Rat
  nonPhysicalTotal : String → Rat

/-- `testDefense(defenseType, rollTotal)`: physical defense resolves HIT on
`rollTotal > dc`, then bands the drawn `r` through dodge, dodge+parry and
dodge+block; non-physical defense is a flat comparison against its total. -/
def testDefense (d : Defenses) (defenseType : String) (rollTotal r : Rat) : ResultType :=
  if defenseType = "physical" then
    if rollTotal > d.physical then ResultType.HIT
    else if r ≤ d.dodge then ResultType.DODGE
    else if r ≤ d.dodge + d.parry then ResultType.PARRY
    else if r ≤ d.dodge + d.block then ResultType.BLOCK
    else ResultType.DEFLECT
  else if rollTotal > d.nonPhysicalTotal defenseType then ResultType.EFFECTIVE
  else ResultType.RESIST

/-- The example target of the claim: physical 20, dodge 4, parry 2, block 0. -/
def exampleDefenses : Defenses :=
  ⟨20, 4, 2, 0, fun _ => 0⟩

/-- C2: full characterization of `testDefense`: physical defense returns HIT
exactly on `rollTotal > physical`, otherwise bands `r` through DODGE /
PARRY / BLOCK / DEFLECT in the cumulative order of the source; non-physical
defense returns EFFECTIVE exactly on `rollTotal > total`, else RESIST; and
the claim's example target behaves as stated. -/
theorem C2_testDefense_characterization :
    (∀ (d : Defenses) (roll r : Rat),
      (testDefense d "physical" roll r = ResultType.HIT ↔ d.physical < roll) ∧
      (testDefense d "physical" roll r = ResultType.DODGE ↔
        roll ≤ d.physical ∧ r ≤ d.dodge) ∧
      (testDefense d "physical" roll r = ResultType.PARRY ↔
        roll ≤ d.physical ∧ d.dodge < r ∧ r ≤ d.dodge + d.parry) ∧
      (testDefense d "physical" roll r = ResultType.BLOCK ↔
        roll ≤ d.physical ∧ d.dodge < r ∧ d.dodge + d.parry < r ∧
          r ≤ d.dodge + d.block) ∧
      (testDefense d "physical" roll r = ResultType.DEFLECT ↔
        roll ≤ d.physical ∧ d.dodge < r ∧ d.dodge + d.parry < r ∧
          d.dodge + d.block < r)) ∧
    (∀ (d : Defenses) (dt : String), dt ≠ "physical" → ∀ roll r : Rat,
      (testDefense d dt roll r = ResultType.EFFECTIVE ↔ d.nonPhysicalTotal dt < roll) ∧
      (testDefense d dt roll r = ResultType.RESIST ↔ roll ≤ d.nonPhysicalTotal dt)) ∧
    (testDefense exampleDefenses "physical" 15 3 = ResultType.DODGE ∧
     testDefense exampleDefenses "physical" 15 5 = ResultType.PARRY ∧
     testDefense exampleDefenses "physical" 15 10 = ResultType.DEFLECT ∧
     ∀ r : Rat, testDefense exampleDefenses "physical" 21 r = ResultType.HIT) := by
  refine ⟨?_, ?_, ?_, ?_, ?_⟩
  · intro d roll r
    refine ⟨?_, ?_, ?_, ?_, ?_⟩ <;>
    · simp only [testDefense, if_pos rfl]
      split_ifs <;> simp_all [not_lt, not_le]
  · intro d dt hdt roll r
    constructor <;>
    · simp only [testDefense, if_neg hdt]
      split_ifs <;> simp_all [not_lt, not_le]
  · simp only [testDefense, exampleDefenses]
    norm_num
  · simp only [testDefense, exampleDefenses]
    norm_num
  · refine ⟨?_, fun r => ?_⟩ <;>
    · simp only [testDefense, exampleDefenses]
      norm_num

/-- C2 witness: the non-physical branch of the characterization applied to
the defense type "fortitude" on the example defenses. -/
theorem C2_testDefense_characterization_witness :
    testDefense exampleDefenses "fortitude" 5 0 = ResultType.EFFECTIVE ↔
      exampleDefenses.nonPhysicalTotal "fortitude" < 5 :=
  (C2_testDefense_characterization.2.1 exampleDefenses "fortitude" (by decide) 5 0).1

/-! ## `CrucibleWeapon.getAllowedEquipmentSlots`

Embeds `CrucibleWeapon.getAllowedEquipmentSlots` and `WEAPON_SLOTS`
(src/module/data/rune.mjs, lines 106-111 and 386-397). -/

/-- `WEAPON_SLOTS.EITHER`. -/
def SLOT_EITHER : Nat := 0

/-- `WEAPON_SLOTS.MAINHAND`. -/
def SLOT_MAINHAND : Nat := 1

/-- `WEAPON_SLOTS.OFFHAND`. -/
def SLOT_OFFHAND : Nat := 2

/-- `WEAPON_SLOTS.TWOHAND`. -/
def SLOT_TWOHAND : Nat := 3

/-- The fields of a weapon category used by `getAllowedEquipmentSlots`:
the number of hands it occupies and off-hand eligibility. -/
structure WeaponCategory where
  hands : Nat
  off : Bool

/-- `getAllowedEquipmentSlots()`: two-handed categories yield only TWOHAND;
otherwise start from `[MAINHAND]`, `unshift(EITHER)` and `push(OFFHAND)`
when the category is off-hand capable, and `push(TWOHAND)` when the weapon
has the versatile property. -/
def getAllowedEquipmentSlots (category : WeaponCategory) (properties : List String) :
    List Nat :=
  if category.hands = 2 then [SLOT_TWOHAND]
  else
    let slots := [SLOT_MAINHAND]
    let slots := if category.off then SLOT_EITHER :: (slots ++ [SLOT_OFFHAND]) else slots
    if properties.contains "versatile" then slots ++ [SLOT_TWOHAND] else slots

/-- C3: a two-handed category yields exactly `[TWOHAND]`; a one-handed
category yields `[MAINHAND]`, surrounded by EITHER/OFFHAND when off-hand
eligible, with TWOHAND appended when versatile; in particular a one-handed,
off-hand-eligible, versatile weapon yields
`[EITHER, MAINHAND, OFFHAND, TWOHAND]` in that order. -/
theorem C3_getAllowedEquipmentSlots_spec :
    (∀ (category : WeaponCategory) (properties : List String), category.hands = 2 →
      getAllowedEquipmentSlots category properties = [SLOT_TWOHAND]) ∧
    (∀ (category : WeaponCategory) (properties : List String), category.hands ≠ 2 →
      getAllowedEquipmentSlots category properties =
        (if category.off then [SLOT_EITHER, SLOT_MAINHAND, SLOT_OFFHAND]
         else [SLOT_MAINHAND]) ++
        (if properties.contains "versatile" then [SLOT_TWOHAND] else [])) ∧
    getAllowedEquipmentSlots ⟨1, true⟩ ["versatile"] =
      [SLOT_EITHER, SLOT_MAINHAND, SLOT_OFFHAND, SLOT_TWOHAND] := by
  refine ⟨?_, ?_, by decide⟩
  · intro category properties h
    simp [getAllowedEquipmentSlots, h]
  · intro category properties h
    cases hoff : category.off <;>
      cases hv : properties.contains "versatile" <;>
        simp_all [getAllowedEquipmentSlots]

/-- C3 witness: the one-handed versatile off-hand-eligible case at concrete
inputs, via the general branch of the theorem. -/
theorem C3_getAllowedEquipmentSlots_spec_witness :
    getAllowedEquipmentSlots ⟨1, false⟩ ["versatile"] =
      (if (false : Bool) then [SLOT_EITHER, SLOT_MAINHAND, SLOT_OFFHAND]
       else [SLOT_MAINHAND]) ++
      (if (["versatile"] : List String).contains "versatile" then [SLOT_TWOHAND] else []) :=
  C3_getAllowedEquipmentSlots_spec.2.1 ⟨1, false⟩ ["versatile"] (by decide)

/-! ## `CrucibleActor.canPurchaseAbility`

Embeds `CrucibleActor.canPurchaseAbility` (src/unnamed/part_005, lines
1324-1343).  `delta` is first reduced with `Math.sign`; a zero sign (or a
missing ability) makes the JS return `undefined`, modelled as `none`.
JavaScript truthiness `!points.pool` / `!points.available` is the test
against `0`. -/

/-- An ability score record: point-buy base, post-level-0 increases, and
the derived value. -/
structure Ability where
  base : Int
  increases : Int
  value : Int

/-- The `points.ability` block: remaining level-0 point-buy pool and
post-level-0 available points. -/
structure AbilityPoints where
  pool : Int
  available : Int

/-- `canPurchaseAbility(ability, delta)` for an ability that exists. -/
def canPurchaseAbility (isL0 : Bool) (points : AbilityPoints) (a : Ability)
    (delta : Int) : Option Bool :=
  let s := Int.sign delta
  if s = 0 then none
  else if isL0 then
    if 0 < s ∧ (a.base = 3 ∨ points.pool = 0) then some false
    else if s < 0 ∧ a.base = 0 then some false
    else some true
  else
    if 0 < s ∧ (a.value = 12 ∨ points.available = 0) then some false
    else if s < 0 ∧ a.increases = 0 then some false
    else some true

/-- C4: at level 0, a positive delta is refused exactly when the base value
is already 3 or the shared pool is exhausted, and a negative delta is
refused exactly when the base value is already 0; otherwise the purchase is
allowed. -/
theorem C4_canPurchaseAbility_level0 :
    (∀ (points : AbilityPoints) (a : Ability) (delta : Int), 0 < delta →
      (canPurchaseAbility true points a delta = some false ↔
        (a.base = 3 ∨ points.pool = 0)) ∧
      (canPurchaseAbility true points a delta = some true ↔
        ¬(a.base = 3 ∨ points.pool = 0))) ∧
    (∀ (points : AbilityPoints) (a : Ability) (delta : Int), delta < 0 →
      (canPurchaseAbility true points a delta = some false ↔ a.base = 0) ∧
      (canPurchaseAbility true points a delta = some true ↔ a.base ≠ 0)) := by
  constructor
  · intro points a delta h
    have hs : Int.sign delta = 1 := Int.sign_eq_one_iff_pos.mpr h
    constructor <;>
      · simp only [canPurchaseAbility, hs]
        split_ifs <;> simp_all
  · intro points a delta h
    have hs : Int.sign delta = -1 := Int.sign_eq_neg_one_iff_neg.mpr h
    constructor <;>
      · simp only [canPurchaseAbility, hs]
        split_ifs <;> simp_all

/-- C4 witness: at level 0 with base 3 a positive purchase is refused. -/
theorem C4_canPurchaseAbility_level0_witness :
    canPurchaseAbility true ⟨2, 0⟩ ⟨3, 0, 3⟩ 1 = some false ↔
      ((3 : Int) = 3 ∨ (2 : Int) = 0) :=
  (C4_canPurchaseAbility_level0.1 ⟨2, 0⟩ ⟨3, 0, 3⟩ 1 (by decide)).1

/-! ## Active-effect expiry: `CrucibleActor.#isEffectExpired` / `expireEffects`

Embeds src/unnamed/part_005, lines 1047-1071.  `Number.isNumeric(rounds)`
failing is modelled by `rounds = none`; `game.combat.round` is the
`currentRound` parameter; `effect.origin === this.uuid` is the self test. -/

/-- The fields of an ActiveEffect consulted by effect expiry. -/
structure ActiveEffect where
  id : String
  origin : String
  startRound : Int
  rounds : Option Int

/-- `#isEffectExpired(effect, start)`. -/
def isEffectExpired (uuid : String) (currentRound : Int) (start : Bool)
    (e : ActiveEffect) : Bool :=
  match e.rounds with
  | none => false
  | some rounds =>
    let remaining := e.startRound + rounds - currentRound
    if e.origin = uuid then decide (remaining ≤ 0)
    else if start then decide (remaining < 0)
    else decide (remaining ≤ 0)

/-- `expireEffects(start)`: the ids collected for deletion. -/
def expireEffects (uuid : String) (currentRound : Int) (start : Bool)
    (effects : List ActiveEffect) : List String :=
  (effects.filter (isEffectExpired uuid currentRound start)).map (fun e => e.id)

/-- C5: asymmetric expiry.  A self-originated effect is judged expired at
turn-start exactly when `(startRound + rounds) − currentRound ≤ 0`; an
effect from another origin uses the strict `< 0` bound at turn-start and
`≤ 0` at turn-end.  Hence a 1-round self effect created on round N expires
at the start of the owner's turn on round N+1 (not before), while an equal
effect from another actor survives that turn-start and expires at the end
of the turn on round N+1. -/
theorem C5_effect_expiry_asymmetry :
    (∀ (uuid : String) (cur : Int) (e : ActiveEffect) (rounds : Int),
      e.rounds = some rounds → e.origin = uuid →
      (isEffectExpired uuid cur true e = true ↔ e.startRound + rounds - cur ≤ 0)) ∧
    (∀ (uuid : String) (cur : Int) (e : ActiveEffect) (rounds : Int),
      e.rounds = some rounds → e.origin ≠ uuid →
      (isEffectExpired uuid cur true e = true ↔ e.startRound + rounds - cur < 0) ∧
      (isEffectExpired uuid cur false e = true ↔ e.startRound + rounds - cur ≤ 0)) ∧
    (∀ N : Int,
      isEffectExpired "Actor.me" (N + 1) true ⟨"e1", "Actor.me", N, some 1⟩ = true ∧
      isEffectExpired "Actor.me" N true ⟨"e1", "Actor.me", N, some 1⟩ = false ∧
      isEffectExpired "Actor.me" N false ⟨"e1", "Actor.me", N, some 1⟩ = false ∧
      isEffectExpired "Actor.me" (N + 1) true ⟨"e2", "Actor.other", N, some 1⟩ = false ∧
      isEffectExpired "Actor.me" (N + 1) false ⟨"e2", "Actor.other", N, some 1⟩ = true ∧
      isEffectExpired "Actor.me" N false ⟨"e2", "Actor.other", N, some 1⟩ = false) := by
  refine ⟨?_, ?_, ?_⟩
  · intro uuid cur e rounds hr ho
    simp [isEffectExpired, hr, ho]
  · intro uuid cur e rounds hr ho
    constructor <;> simp [isEffectExpired, hr, ho]
  · intro N
    refine ⟨?_, ?_, ?_, ?_, ?_, ?_⟩ <;> simp [isEffectExpired]

/-- C5 witness: a 1-round self effect created on round 3 is expired at the
start of the owner's turn on round 4. -/
theorem C5_effect_expiry_asymmetry_witness :
    isEffectExpired "Actor.me" 4 true ⟨"e1", "Actor.me", 3, some 1⟩ = true ↔
      (3 : Int) + 1 - 4 ≤ 0 :=
  C5_effect_expiry_asymmetry.1 "Actor.me" 4 ⟨"e1", "Actor.me", 3, some 1⟩ 1 rfl rfl

/-! ## Token engagement symmetry: `CrucibleTokenObject.updateFlanking`

Embeds src/module/canvas/token.mjs, lines 137-158 (`updateFlanking`) and
187-196 (`_onDelete`).  Tokens are identified by `Nat`; the global
engagement state maps each token to its `engaged` set.  `updateFlanking`
first iterates the prior `this.engaged`, deleting (on both tokens) each
member not in the new `enemies` set, then iterates `enemies`, adding (on
both tokens) each member not already engaged; the committed result is
pointwise: the calling token ends with exactly `enemies`, a token in
`enemies` not previously engaged gains the edge, a previously engaged token
not in `enemies` loses it, all others are untouched. -/

/-- The engagement state after `t.updateFlanking({enemies})` commits. -/
def updateFlankingState (E : Nat → Finset Nat) (t : Nat) (enemies : Finset Nat) :
    Nat → Finset Nat := fun u =>
  if u = t then enemies
  else if u ∈ enemies ∧ u ∉ E t then insert t (E u)
  else if u ∉ enemies ∧ u ∈ E t then (E u).erase t
  else E u

/-- The engagement state after the `_onDelete` handler for token `t`: every
engaged partner drops `t`, and `t`'s own set is cleared. -/
def onDeleteState (E : Nat → Finset Nat) (t : Nat) : Nat → Finset Nat := fun u =>
  if u = t then ∅
  else if u ∈ E t then (E u).erase t
  else E u

/-- Engagement symmetry: each edge is mirrored on both tokens. -/
def SymmetricEngagement (E : Nat → Finset Nat) : Prop :=
  ∀ a b, a ∈ E b ↔ b ∈ E a

/-- Membership in another token's engaged set is unchanged for pairs not
involving the updating token. -/
theorem mem_updateFlankingState_of_ne (E : Nat → Finset Nat) (t : Nat)
    (enemies : Finset Nat) {a u : Nat} (ha : a ≠ t) (hu : u ≠ t) :
    a ∈ updateFlankingState E t enemies u ↔ a ∈ E u := by
  simp only [updateFlankingState, if_neg hu]
  split_ifs <;> simp [Finset.mem_insert, Finset.mem_erase, ha]

/-- The updating token ends engaged to exactly the computed `enemies`. -/
theorem mem_updateFlankingState_self (E : Nat → Finset Nat) (t : Nat)
    (enemies : Finset Nat) (a : Nat) :
    a ∈ updateFlankingState E t enemies t ↔ a ∈ enemies := by
  simp [updateFlankingState]

/-- In a symmetric prior state, another token ends engaged to the updating
token exactly when it is among the computed `enemies`. -/
theorem t_mem_updateFlankingState (E : Nat → Finset Nat) (t : Nat)
    (enemies : Finset Nat) (hE : SymmetricEngagement E) {u : Nat} (hu : u ≠ t) :
    t ∈ updateFlankingState E t enemies u ↔ u ∈ enemies := by
  have h := hE t u
  simp only [updateFlankingState, if_neg hu]
  split_ifs with h1 h2
  · exact iff_of_true (Finset.mem_insert_self t (E u)) h1.1
  · exact iff_of_false (fun hc => (Finset.mem_erase.mp hc).1 rfl) h2.1
  · tauto

/-- After the deletion handler the deleted token has no engagements left. -/
theorem onDeleteState_self (E : Nat → Finset Nat) (t : Nat) :
    onDeleteState E t t = ∅ := by
  simp [onDeleteState]

/-- In a symmetric prior state, no surviving token stays engaged to the
deleted token. -/
theorem t_not_mem_onDeleteState (E : Nat → Finset Nat) (t : Nat)
    (hE : SymmetricEngagement E) {u : Nat} (hu : u ≠ t) :
    t ∉ onDeleteState E t u := by
  have h := hE t u
  simp only [onDeleteState, if_neg hu]
  split_ifs with h1
  · exact fun hc => (Finset.mem_erase.mp hc).1 rfl
  · exact fun hc => h1 (h.mp hc)

/-- Deletion leaves engagements between two surviving tokens untouched. -/
theorem mem_onDeleteState_of_ne (E : Nat → Finset Nat) (t : Nat)
    {a u : Nat} (ha : a ≠ t) (hu : u ≠ t) :
    a ∈ onDeleteState E t u ↔ a ∈ E u := by
  simp only [onDeleteState, if_neg hu]
  split_ifs <;> simp [Finset.mem_erase, ha]

/-- C6: engagement symmetry is preserved both by `updateFlanking` and by the
token-deletion handler: starting from any symmetric engagement state, every
addition or removal of an edge is mirrored on both tokens, so the resulting
state is again symmetric. -/
theorem C6_engagement_symmetry :
    (∀ (E : Nat → Finset Nat) (t : Nat) (enemies : Finset Nat),
      SymmetricEngagement E → SymmetricEngagement (updateFlankingState E t enemies)) ∧
    (∀ (E : Nat → Finset Nat) (t : Nat),
      SymmetricEngagement E → SymmetricEngagement (onDeleteState E t)) := by
  constructor
  · intro E t enemies hE a b
    by_cases hb : b = t <;> by_cases ha : a = t
    · rw [hb, ha]
    · rw [hb, mem_updateFlankingState_self,
          t_mem_updateFlankingState E t enemies hE ha]
    · rw [ha, mem_updateFlankingState_self,
          t_mem_updateFlankingState E t enemies hE hb]
    · rw [mem_updateFlankingState_of_ne E t enemies ha hb,
          mem_updateFlankingState_of_ne E t enemies hb ha]
      exact hE a b
  · intro E t hE a b
    by_cases hb : b = t <;> by_cases ha : a = t
    · rw [hb, ha]
    · rw [hb, onDeleteState_self]
      exact iff_of_false (Finset.not_mem_empty a)
        (fun hc => t_not_mem_onDeleteState E t hE ha hc)
    · rw [ha, onDeleteState_self]
      exact iff_of_false (fun hc => t_not_mem_onDeleteState E t hE hb hc)
        (Finset.not_mem_empty b)
    · rw [mem_onDeleteState_of_ne E t ha hb, mem_onDeleteState_of_ne E t hb ha]
      exact hE a b

/-- C6 witness: preservation applied to the empty engagement state with
token 0 engaging token 1, and to deletion of token 0. -/
theorem C6_engagement_symmetry_witness :
    SymmetricEngagement (updateFlankingState (fun _ => ∅) 0 {1}) ∧
    SymmetricEngagement (onDeleteState (fun _ => ∅) 0) :=
  ⟨C6_engagement_symmetry.1 (fun _ => ∅) 0 {1} (fun a b => by simp),
   C6_engagement_symmetry.2 (fun _ => ∅) 0 (fun a b => by simp)⟩

/-! ## Talent preparation: `CrucibleActor._prepareTalents` / `_prepareActions`

Embeds src/unnamed/part_005, lines 412-436 and 374-391.  Spellcraft
knowledge sets hold the ids of the registered runes/gestures/inflections
(the JS stores the corresponding `SYSTEM.SPELL.*` config objects, which are
keyed by these same ids).  The action registry is keyed by action id;
membership of an id is what the claim observes. -/

/-- The fields of a talent Item consulted during talent preparation. -/
structure TalentItem where
  id : String
  rune : Option String
  gesture : Option String
  inflection : Option String
  actions : List String

/-- The actor's spellcraft grimoire. -/
structure Grimoire where
  runes : Finset String
  gestures : Finset String
  inflections : Finset String

/-- The running state of the `for ( const t of talent )` loop. -/
structure TalentState where
  talentIds : Finset String
  grimoire : Grimoire
  spent : Int

/-- One iteration of the talent loop: record the id, spend a flat 1 point,
and register rune (granting "touch" while no gesture is known yet), gesture
and inflection knowledge. -/
def prepareTalentStep (s : TalentState) (t : TalentItem) : TalentState :=
  let s1 : TalentState :=
    { s with talentIds := insert t.id s.talentIds, spent := s.spent + 1 }
  let s2 : TalentState :=
    match t.rune with
    | none => s1
    | some r =>
      let g1 : Grimoire := { s1.grimoire with runes := insert r s1.grimoire.runes }
      let g2 : Grimoire :=
        if g1.gestures = ∅ then { g1 with gestures := insert "touch" g1.gestures }
        else g1
      { s1 with grimoire := g2 }
  let s3 : TalentState :=
    match t.gesture with
    | none => s2
    | some g =>
      { s2 with grimoire :=
          { s2.grimoire with gestures := insert g s2.grimoire.gestures } }
  match t.inflection with
  | none => s3
  | some i =>
    { s3 with grimoire :=
        { s3.grimoire with inflections := insert i s3.grimoire.inflections } }

/-- The outcome of `_prepareTalents`. -/
structure PreparedTalents where
  talentIds : Finset String
  grimoire : Grimoire
  spent : Int
  available : Int
  warned : Bool

/-- `_prepareTalents({talent})`: fold the owned talents over a fresh
`talentIds`/grimoire and the initial spent count, then derive
`available = total − spent` and the build-legality warning. -/
def prepareTalents (talents : List TalentItem) (total spent0 : Int) : PreparedTalents :=
  let s := talents.foldl prepareTalentStep ⟨∅, ⟨∅, ∅, ∅⟩, spent0⟩
  let available := total - s.spent
  ⟨s.talentIds, s.grimoire, s.spent, available, decide (available < 0)⟩

/-- `_prepareActions()`: default actions (with "cast" gated on knowing both
a gesture and a rune, "reload" gated on reload-capable equipment) followed
by every owned talent's granted actions. -/
def prepareActions (defaultActions : List String) (hasGesture hasRune reload : Bool)
    (talents : List TalentItem) : List String :=
  (defaultActions.filter (fun a =>
    if a = "cast" then hasGesture && hasRune
    else if a = "reload" then reload
    else true)) ++
  talents.foldl (fun acc t => acc ++ t.actions) []

/-- Each talent loop iteration spends exactly one point. -/
theorem prepareTalentStep_spent (s : TalentState) (t : TalentItem) :
    (prepareTalentStep s t).spent = s.spent + 1 := by
  simp only [prepareTalentStep]
  cases t.rune <;> cases t.gesture <;> cases t.inflection <;> split_ifs <;> rfl

/-- The talent fold spends one point per talent. -/
theorem foldl_prepareTalentStep_spent (talents : List TalentItem) (s : TalentState) :
    (talents.foldl prepareTalentStep s).spent = s.spent + talents.length := by
  induction talents generalizing s with
  | nil => simp
  | cons t ts ih =>
    simp only [List.foldl_cons, ih, prepareTalentStep_spent, List.length_cons]
    omega

/-- Gesture knowledge only grows along the talent loop. -/
theorem prepareTalentStep_gestures_mono (s : TalentState) (t : TalentItem) {x : String}
    (hx : x ∈ s.grimoire.gestures) : x ∈ (prepareTalentStep s t).grimoire.gestures := by
  simp only [prepareTalentStep]
  cases t.rune <;> cases t.gesture <;> cases t.inflection <;> split_ifs <;>
    simp [Finset.mem_insert, hx]

/-- Gesture knowledge only grows along the whole fold. -/
theorem foldl_prepareTalentStep_gestures_mono (talents : List TalentItem)
    (s : TalentState) {x : String} (hx : x ∈ s.grimoire.gestures) :
    x ∈ (talents.foldl prepareTalentStep s).grimoire.gestures := by
  induction talents generalizing s with
  | nil => exact hx
  | cons t ts ih => exact ih _ (prepareTalentStep_gestures_mono s t hx)

/-- If no owned talent grants a gesture but some talent grants a rune, the
fold starting from an empty gesture set ends up knowing "touch". -/
theorem foldl_prepareTalentStep_touch (talents : List TalentItem) (s : TalentState)
    (hg : ∀ t ∈ talents, t.gesture = none) (hs : s.grimoire.gestures = ∅)
    (hr : ∃ t ∈ talents, t.rune ≠ none) :
    "touch" ∈ (talents.foldl prepareTalentStep s).grimoire.gestures := by
  induction talents generalizing s with
  | nil => simp at hr
  | cons t ts ih =>
    rcases hrt : t.rune with _ | r
    · have hstep : (prepareTalentStep s t).grimoire.gestures = ∅ := by
        simp only [prepareTalentStep, hrt, hg t (List.mem_cons_self t ts)]
        cases t.inflection <;> simp [hs]
      rcases hr with ⟨t0, ht0, hr0⟩
      rcases List.mem_cons.mp ht0 with h | h
      · exact absurd (h ▸ hrt) (h ▸ hr0)
      · exact ih _ (fun u hu => hg u (List.mem_cons_of_mem t hu)) hstep ⟨t0, h, hr0⟩
    · have hstep : "touch" ∈ (prepareTalentStep s t).grimoire.gestures := by
        simp only [prepareTalentStep, hrt, hg t (List.mem_cons_self t ts)]
        cases t.inflection <;> simp [hs]
      exact foldl_prepareTalentStep_gestures_mono ts _ hstep

/-- The action-append fold is the concatenation of all talent action lists. -/
theorem foldl_actions_eq (talents : List TalentItem) (acc : List String) :
    talents.foldl (fun acc t => acc ++ t.actions) acc =
      acc ++ (talents.map TalentItem.actions).flatten := by
  induction talents generalizing acc with
  | nil => simp
  | cons t ts ih => simp [ih, List.append_assoc]

/-- C7: the talent pass spends a flat 1 point per owned talent, derives
`available = total − spent`, raises the build warning exactly when
`available` is negative while still producing the prepared state, grants
the "touch" gesture when some rune but no gesture is known, and every owned
talent's granted actions appear in the actions registry. -/
theorem C7_prepareTalents_spec :
    ∀ (talents : List TalentItem) (total spent0 : Int),
      (prepareTalents talents total spent0).spent = spent0 + talents.length ∧
      (prepareTalents talents total spent0).available =
        total - (spent0 + talents.length) ∧
      ((prepareTalents talents total spent0).warned = true ↔
        (prepareTalents talents total spent0).available < 0) ∧
      ((∀ t ∈ talents, t.gesture = none) → (∃ t ∈ talents, t.rune ≠ none) →
        "touch" ∈ (prepareTalents talents total spent0).grimoire.gestures) ∧
      (∀ (defaultActions : List String) (hasGesture hasRune reload : Bool),
        ∀ t ∈ talents, ∀ a ∈ t.actions,
          a ∈ prepareActions defaultActions hasGesture hasRune reload talents) := by
  intro talents total spent0
  refine ⟨?_, ?_, ?_, ?_, ?_⟩
  · simp [prepareTalents, foldl_prepareTalentStep_spent]
  · simp [prepareTalents, foldl_prepareTalentStep_spent]
  · simp [prepareTalents]
  · intro hg hr
    exact foldl_prepareTalentStep_touch talents _ hg rfl hr
  · intro defaultActions hasGesture hasRune reload t ht a ha
    simp only [prepareActions, foldl_actions_eq, List.nil_append, List.mem_append]
    exact Or.inr (List.mem_flatten.mpr ⟨t.actions, List.mem_map_of_mem _ ht, ha⟩)

/-- C7 witness: three talents (each granting one action) against a budget of
2 yield `available = −1` with the warning raised, yet all three granted
actions are exposed. -/
theorem C7_prepareTalents_spec_witness :
    (prepareTalents [⟨"t1", none, none, none, ["a1"]⟩, ⟨"t2", none, none, none, ["a2"]⟩,
        ⟨"t3", none, none, none, ["a3"]⟩] 2 0).available = 2 - (0 + 3) ∧
    "a2" ∈ prepareActions ["strike"] false false false
      [⟨"t1", none, none, none, ["a1"]⟩, ⟨"t2", none, none, none, ["a2"]⟩,
       ⟨"t3", none, none, none, ["a3"]⟩] ∧
    "touch" ∈ (prepareTalents [⟨"r1", some "flame", none, none, []⟩] 2 0).grimoire.gestures :=
  ⟨(C7_prepareTalents_spec [⟨"t1", none, none, none, ["a1"]⟩,
      ⟨"t2", none, none, none, ["a2"]⟩, ⟨"t3", none, none, none, ["a3"]⟩] 2 0).2.1,
   (C7_prepareTalents_spec [⟨"t1", none, none, none, ["a1"]⟩,
      ⟨"t2", none, none, none, ["a2"]⟩, ⟨"t3", none, none, none, ["a3"]⟩] 2 0).2.2.2.2
     ["strike"] false false false ⟨"t2", none, none, none, ["a2"]⟩ (by simp) "a2" (by simp),
   (C7_prepareTalents_spec [⟨"r1", some "flame", none, none, []⟩] 2 0).2.2.2.1
     (by simp) ⟨⟨"r1", some "flame", none, none, []⟩, by simp, by simp⟩⟩

/-! ## Spell cost composition: `CrucibleSpell.#prepareCost` / `_prepareForActor`

Embeds src/module/data/rune.mjs, lines 548-555 and 643-658.  The part of
`_prepareForActor` after the gesture-specific adjustments is modelled on an
arbitrary incoming cost: the blood-magic conversion, the `_trueCost`
snapshot, and the zeroing of the displayed action/focus cost while the
composition state is not COMPOSED. -/

/-- An ActionCost record: action points, focus points, and health points
(the latter only introduced by blood magic). -/
structure SpellCost where
  action : Int
  focus : Int
  health : Int
deriving DecidableEq, Repr

/-- `COMPOSITION_STATES.NONE`. -/
def COMPOSITION_NONE : Nat := 0

/-- `COMPOSITION_STATES.COMPOSING`. -/
def COMPOSITION_COMPOSING : Nat := 1

/-- `COMPOSITION_STATES.COMPOSED`. -/
def COMPOSITION_COMPOSED : Nat := 2

/-- `CrucibleSpell.#prepareCost(spell)`: copy the gesture's cost and, when
an inflection is chosen, add its action and focus cost on top. -/
def prepareCost (gestureCost : SpellCost) (inflectionCost : Option SpellCost) : SpellCost :=
  match inflectionCost with
  | none => gestureCost
  | some ic =>
    { gestureCost with
        action := gestureCost.action + ic.action
        focus := gestureCost.focus + ic.focus }

/-- The tail of `CrucibleSpell._prepareForActor()`: blood magic rewrites the
cost as `health = focus * 10, focus = 0`; `_trueCost` snapshots the cost;
a spell not yet COMPOSED displays action and focus as 0.  Returns
`(displayed cost, _trueCost)`. -/
def prepareForActorCost (hasBloodMagic : Bool) (composition : Nat) (cost : SpellCost) :
    SpellCost × SpellCost :=
  let c1 :=
    if hasBloodMagic then { cost with health := cost.focus * 10, focus := 0 }
    else cost
  let trueCost := c1
  let displayed :=
    if composition ≠ COMPOSITION_COMPOSED then { c1 with action := 0, focus := 0 }
    else c1
  (displayed, trueCost)

/-- C8: the prepared cost is the gesture cost plus the chosen inflection's
action/focus cost; blood magic converts the entire focus cost to health at
10 health per focus point with focus becoming 0; while not COMPOSED the
displayed action and focus cost are forced to 0 while `_trueCost` retains
the real cost, and at COMPOSED the displayed cost is the true cost. -/
theorem C8_spell_cost_spec :
    (∀ g : SpellCost, prepareCost g none = g) ∧
    (∀ g i : SpellCost, prepareCost g (some i) =
      { action := g.action + i.action, focus := g.focus + i.focus, health := g.health }) ∧
    (∀ (composition : Nat) (cost : SpellCost),
      (prepareForActorCost true composition cost).2 =
        { action := cost.action, focus := 0, health := cost.focus * 10 }) ∧
    (∀ (hbm : Bool) (composition : Nat) (cost : SpellCost),
      composition ≠ COMPOSITION_COMPOSED →
      (prepareForActorCost hbm composition cost).1.action = 0 ∧
      (prepareForActorCost hbm composition cost).1.focus = 0 ∧
      (prepareForActorCost hbm composition cost).2 =
        (prepareForActorCost hbm COMPOSITION_COMPOSED cost).2) ∧
    (∀ (hbm : Bool) (cost : SpellCost),
      (prepareForActorCost hbm COMPOSITION_COMPOSED cost).1 =
        (prepareForActorCost hbm COMPOSITION_COMPOSED cost).2) := by
  refine ⟨fun g => rfl, fun g i => rfl, fun composition cost => rfl, ?_, ?_⟩
  · intro hbm composition cost h
    cases hbm <;> simp [prepareForActorCost, h]
  · intro hbm cost
    cases hbm <;> simp [prepareForActorCost, COMPOSITION_COMPOSED]

/-- C8 witness: an un-composed spell of action 1, focus 2 displays cost 0/0
while its `_trueCost` equals the COMPOSED-state cost. -/
theorem C8_spell_cost_spec_witness :
    (prepareForActorCost false COMPOSITION_COMPOSING ⟨1, 2, 0⟩).1.action = 0 ∧
    (prepareForActorCost false COMPOSITION_COMPOSING ⟨1, 2, 0⟩).1.focus = 0 ∧
    (prepareForActorCost false COMPOSITION_COMPOSING ⟨1, 2, 0⟩).2 =
      (prepareForActorCost false COMPOSITION_COMPOSED ⟨1, 2, 0⟩).2 :=
  C8_spell_cost_spec.2.2.2.1 false COMPOSITION_COMPOSING ⟨1, 2, 0⟩ (by decide)

/-! ## Equipped armor resolution: `CrucibleActor._prepareArmor`

Embeds src/unnamed/part_005, lines 252-271.  The JS filters the equipped
armor items; when more than one is equipped it warns and reassigns the
`armors` variable to its own first element (an item, not an array), after
which `armors[0]` is a property access on a plain object and yields
`undefined`, so the unarmored substitute is used.  The dynamic value of
`armors` is modelled by `JSArmorsValue`. -/

/-- The fields of an armor Item consulted by `_prepareArmor`. -/
structure ArmorItem where
  id : String
  equipped : Bool
deriving DecidableEq, Repr

/-- The dynamic value held by the JS `armors` variable: an array of items,
or (after the reassignment) a single item object. -/
inductive JSArmorsValue
  | arr (items : List ArmorItem)
  | single (item : ArmorItem)

/-- JS index access `armors[0]`: the first element of an array; on a plain
item object there is no "0" property, so the access yields `undefined`. -/
def index0 : JSArmorsValue → Option ArmorItem
  | JSArmorsValue.arr items => items.head?
  | JSArmorsValue.single _ => none

/-- The equipped armor items, in inventory order. -/
def equippedArmors (armorItems : List ArmorItem) : List ArmorItem :=
  armorItems.filter (fun i => i.equipped)

/-- `_prepareArmor(armorItems)`: returns the resolved armor (falling back to
the `_getUnarmoredArmor` substitute) and whether the multiple-equipped
warning fired. -/
def prepareArmor (unarmored : ArmorItem) (armorItems : List ArmorItem) :
    ArmorItem × Bool :=
  let armors := equippedArmors armorItems
  let v : JSArmorsValue :=
    if 1 < armors.length then
      match armors.head? with
      | some a => JSArmorsValue.single a
      | none => JSArmorsValue.arr armors
    else JSArmorsValue.arr armors
  ((index0 v).getD unarmored, decide (1 < armors.length))

/-- C10: with more than one equipped armor the pass warns and resolves to
the unarmored substitute (the `[0]` access on the reassigned single item
yields undefined); with exactly one equipped armor that armor is returned;
with none the unarmored substitute is returned. -/
theorem C10_prepareArmor_spec :
    ∀ (unarmored : ArmorItem) (armorItems : List ArmorItem),
      (1 < (equippedArmors armorItems).length →
        prepareArmor unarmored armorItems = (unarmored, true)) ∧
      (∀ a : ArmorItem, equippedArmors armorItems = [a] →
        prepareArmor unarmored armorItems = (a, false)) ∧
      (equippedArmors armorItems = [] →
        prepareArmor unarmored armorItems = (unarmored, false)) := by
  intro unarmored armorItems
  refine ⟨?_, ?_, ?_⟩
  · intro h
    rcases hq : equippedArmors armorItems with _ | ⟨a, rest⟩
    · rw [hq] at h; simp at h
    · rw [hq] at h
      have h' : 0 < rest.length := by simpa using h
      simp [prepareArmor, hq, h', index0]
  · intro a hq
    simp [prepareArmor, hq, index0]
  · intro hq
    simp [prepareArmor, hq, index0]

/-- C10 witness: two equipped armors resolve to the unarmored substitute
with the warning raised. -/
theorem C10_prepareArmor_spec_witness :
    prepareArmor ⟨"unarmored0000000", false⟩
      [⟨"chain", true⟩, ⟨"plate", true⟩] = (⟨"unarmored0000000", false⟩, true) :=
  (C10_prepareArmor_spec ⟨"unarmored0000000", false⟩
    [⟨"chain", true⟩, ⟨"plate", true⟩]).1 (by decide)

/-! ## The id-standardization utility: `standardizeItemIds`

Embeds src/unnamed/part_000, lines 445-457.  The loop computes each item's
standardized id, skips items already carrying it, throws when the
standardized id is already in use in the (unchanged-during-the-loop) world
item collection, and otherwise schedules a deletion and a re-creation.
Only after the whole loop succeeds are the deletions committed, followed by
the creations. -/

/-- A world Item as consulted by the utility: current id and name. -/
structure WorldItem where
  id : String
  name : String
deriving DecidableEq, Repr

/-- Modelled from the spec: Foundry core's `String#slugify` is not under
src/; per the spec the name is slugified with non-alphanumeric characters
stripped (lowercasing), truncated to 16 characters and zero-padded to 16. -/
def standardId (name : String) : String :=
  let slug := (name.data.map Char.toLower).filter Char.isAlphanum
  let truncated := slug.take 16
  String.mk (truncated ++ List.replicate (16 - truncated.length) (Char.ofNat 48))

/-- The `for ( const item of game.items )` loop, accumulating scheduled
deletions and creations; `game.items.has(standardId)` consults the ids of
the original collection, which is not mutated during the loop. -/
def standardizeLoop (allIds : List String) :
    List WorldItem → List String → List WorldItem →
      Except String (List String × List WorldItem)
  | [], deletions, creations => Except.ok (deletions, creations)
  | item :: rest, deletions, creations =>
    let sid := standardId item.name
    if item.id = sid then standardizeLoop allIds rest deletions creations
    else if allIds.contains sid then
      Except.error ("Standardized system ID " ++ sid ++ " is already in use")
    else
      standardizeLoop allIds rest (deletions ++ [item.id])
        (creations ++ [{ item with id := sid }])

/-- `standardizeItemIds()`: run the loop against the current world items. -/
def standardizeItemIds (items : List WorldItem) :
    Except String (List String × List WorldItem) :=
  standardizeLoop (items.map (fun i => i.id)) items [] []

/-- The committed world collection: an error (a thrown conflict) precedes
both persistence calls and leaves the collection unchanged; on success the
scheduled deletions are applied and the creations appended. -/
def runStandardizeItemIds (items : List WorldItem) : List WorldItem :=
  match standardizeItemIds items with
  | Except.error _ => items
  | Except.ok (deletions, creations) =>
    (items.filter (fun i => !(deletions.contains i.id))) ++ creations

/-- C9 counterexample: the items "Foo" (id "aaaa") and "FOO" (id "bbbb")
both standardize to the same fresh slug "foo0000000000000"; the utility
raises no conflict error — it returns successfully with both originals
scheduled for deletion and two creations under the identical id, and the
committed collection no longer contains either original item. -/
theorem C9_standardizeItemIds_counterexample :
    standardizeItemIds [⟨"aaaa", "Foo"⟩, ⟨"bbbb", "FOO"⟩] =
      Except.ok (["aaaa", "bbbb"],
        [⟨"foo0000000000000", "Foo"⟩, ⟨"foo0000000000000", "FOO"⟩]) ∧
    runStandardizeItemIds [⟨"aaaa", "Foo"⟩, ⟨"bbbb", "FOO"⟩] =
      [⟨"foo0000000000000", "Foo"⟩, ⟨"foo0000000000000", "FOO"⟩] :=
  ⟨rfl, rfl⟩

/-- Whenever some remaining item standardizes to an id that is in use and
differs from its own, the loop ends in the conflict error. -/
theorem standardizeLoop_error (allIds : List String) :
    ∀ (rest : List WorldItem) (deletions : List String) (creations : List WorldItem),
      (∃ i ∈ rest, standardId i.name ≠ i.id ∧ allIds.contains (standardId i.name)) →
      ∃ e, standardizeLoop allIds rest deletions creations = Except.error e := by
  intro rest
  induction rest with
  | nil => intro _ _ h; simp at h
  | cons j tail ih =>
    intro deletions creations h
    rcases h with ⟨i, hi, hne, hin⟩
    simp only [standardizeLoop]
    split_ifs with h1 h2
    · rcases List.mem_cons.mp hi with h | h
      · exact absurd (h ▸ h1.symm) (h ▸ hne)
      · exact ih _ _ ⟨i, h, hne, hin⟩
    · exact ⟨_, rfl⟩
    · rcases List.mem_cons.mp hi with h | h
      · exact absurd (h ▸ hin) (h ▸ h2)
      · exact ih _ _ ⟨i, h, hne, hin⟩

/-- C9 amended: a thrown conflict error precedes any commit, so on error
the collection is left fully intact; and the conflict error is raised
whenever some item's standardized id collides with an id currently in use
by the collection — but not when two items merely map to the same fresh
slug, as the counterexample shows. -/
theorem C9_standardizeItemIds_amended :
    (∀ (items : List WorldItem) (e : String),
      standardizeItemIds items = Except.error e →
        runStandardizeItemIds items = items) ∧
    (∀ items : List WorldItem,
      (∃ i ∈ items, standardId i.name ≠ i.id ∧
        (items.map (fun j => j.id)).contains (standardId i.name)) →
      ∃ e, standardizeItemIds items = Except.error e) := by
  constructor
  · intro items e h
    simp [runStandardizeItemIds, h]
  · intro items h
    exact standardizeLoop_error (items.map (fun j => j.id)) items [] [] h

/-- C9 amended witness: an item whose standardized slug is the id of an
existing item triggers the conflict error. -/
theorem C9_standardizeItemIds_amended_witness :
    ∃ e, standardizeItemIds [⟨"foo0000000000000", "Bar"⟩, ⟨"xyz", "Foo"⟩] =
      Except.error e :=
  C9_standardizeItemIds_amended.2 [⟨"foo0000000000000", "Bar"⟩, ⟨"xyz", "Foo"⟩]
    (by decide)

end Crucible
